import Mathlib

/-!
Shallow embedding of the transactional core of the recipe-share-api
repository (src/utils/helper.ts, src/utils/operations.ts,
src/controllers/recipe.controller.ts, src/controllers/user.controller.ts),
together with theorems settling the specification claims about it.

Conventions of the embedding:
* machine strings are Lean `String`s; MongoDB object ids are `Nat`;
* a JavaScript `throw` after `res.status(s)` is `JsErr.httpError s msg`;
  a `throw new Error(msg)` with no status set is `JsErr.plainError msg`;
  a `JSON.parse` failure is `JsErr.parseFailure input`;
* external capabilities (sharp, cloudinary, JSON.parse, the random
  suffix stream) are parameters of the embedded functions;
* fallible code returns `Except`.
-/

/-- Error raised by a route handler: `res.status(s); throw new Error(msg)`. -/
inductive JsErr where
  | httpError (status : Nat) (msg : String)
  | plainError (msg : String)
  | parseFailure (input : String)
deriving DecidableEq, Repr

/- ===================== Unique-Identifier Allocator =====================
   Source: src/utils/helper.ts lines 10-46. -/

/-- Whitespace class of the JavaScript regular expression `\s`
(the characters that can actually occur here are the ASCII ones;
the later `[^a-z0-9]` strip removes any remaining exotic character). -/
def jsWhitespace (c : Char) : Bool :=
  c = ' ' || c = '\t' || c = '\n' || c = '\r' ||
  c.val = 11 || c.val = 12 || c.val = 0xa0 || c.val = 0xfeff

/-- Character class `[a-z0-9]` used by the sanitizer. -/
def isLowerAlnum (c : Char) : Bool :=
  ('a' ≤ c && c ≤ 'z') || ('0' ≤ c && c ≤ '9')

/-- JavaScript `String.prototype.trim` on a character list. -/
def jsTrim (cs : List Char) : List Char :=
  ((cs.dropWhile jsWhitespace).reverse.dropWhile jsWhitespace).reverse

/-- The sanitizing pipeline of `generateUsername`:
`base.trim().toLowerCase().replace(/\s+/g, "").replace(/[^a-z0-9]/g, "").substring(0, 20)`. -/
def sanitizeBase (base : String) : String :=
  String.mk (((((jsTrim base.toList).map Char.toLower).filter
      (fun c => !jsWhitespace c)).filter isLowerAlnum).take 20)

/-- Source `generateUsername` (helper.ts lines 10-19): sanitized base,
with the JS falsy-string fallback `sanitized || "user"`. -/
def generateUsername (base : String) : String :=
  let sanitized := sanitizeBase base
  if sanitized = "" then "user" else sanitized

/-- The do-while loop of `generateUniqueUsername` (helper.ts lines 35-43).
`i` is the index into the random-suffix stream `suf`; the fuel argument
counts the remaining attempts before `attempts > 10` throws. -/
def uniqueLoop (username : String) (ex : String → Bool) (suf : Nat → String) :
    Nat → Nat → Except String String
  | _, 0 => .error "Failed to generate unique username"
  | i, k + 1 =>
    let newUsername := username ++ "." ++ suf i
    if ex newUsername then uniqueLoop username ex suf (i + 1) k
    else .ok newUsername

/-- Source `generateUniqueUsername` (helper.ts lines 22-46).  The database
existence check `model.findOne({username}).session(session)` is the
capability `ex`; the `generateSuffix()` random stream is `suf`. -/
def generateUniqueUsername (base : String) (ex : String → Bool)
    (suf : Nat → String) : Except String String :=
  let username := generateUsername base
  if ex username then uniqueLoop username ex suf 0 10
  else .ok username

/- ===================== User fetch by username =====================
   Source: src/controllers/user.controller.ts lines 13-47. -/

/-- Identity record as stored in the users collection (the fields the
claims touch: `_id`, `username`, `role`, `savedRecipes`). -/
structure UserDoc where
  id : Nat
  username : String
  role : String
  savedRecipes : List Nat
deriving DecidableEq, Repr

/-- Image reference `{public_id, url}`. -/
structure ImageRef where
  public_id : String
  url : String
deriving DecidableEq, Repr

/-- Recipe document (the fields the claims touch).  The three array
fields hold the elements produced by `JSON.parse`, abstracted to
strings. -/
structure RecipeDoc where
  id : Nat
  createdBy : Nat
  savedBy : List Nat
  name : String
  desc : String
  prepTime : Int
  difficulty : String
  serving : Int
  cuisine : String
  nutritionFacts : List String
  ingredients : List String
  instructions : List String
  image : Option ImageRef
deriving DecidableEq, Repr

/-- The document database: the two collections the claims touch. -/
structure DB where
  users : List UserDoc
  recipes : List RecipeDoc
deriving DecidableEq, Repr

/-- Mongo `User.findById` / `findOne({_id})`. -/
def findUser (db : DB) (id : Nat) : Option UserDoc :=
  db.users.find? (fun u => u.id == id)

/-- Mongo `Recipe.findById`. -/
def findRecipe (db : DB) (id : Nat) : Option RecipeDoc :=
  db.recipes.find? (fun r => r.id == id)

/-- The test of `/^[a-zA-Z0-9]+$/` in `getUser`. -/
def usernameRegexTest (s : String) : Bool :=
  !s.data.isEmpty && s.data.all (fun c => c.isAlpha || c.isDigit)

/-- Result of `getUser`, recording whether the database was queried. -/
structure GetUserResult where
  result : Except JsErr UserDoc
  queried : Bool
deriving Repr

/-- Source `getUser` (user.controller.ts lines 13-47): presence check,
strict `^[a-zA-Z0-9]+$` validation, then a case-insensitive exact-match
query. -/
def getUser (username : String) (db : DB) : GetUserResult :=
  if username = "" then
    ⟨.error (.httpError 400 "Username is required"), false⟩
  else if !usernameRegexTest username then
    ⟨.error (.httpError 400
      "Invalid username format. Only letters and numbers are allowed"), false⟩
  else
    match db.users.find? (fun u => u.username.toLower == username.toLower) with
    | none => ⟨.error (.httpError 404 "User not found"), true⟩
    | some u => ⟨.ok u, true⟩

/- ===================== theorems: C7, C8, C9 ===================== -/

theorem uniqueLoop_exhausts (username : String) (ex : String → Bool)
    (suf : Nat → String) :
    ∀ k i, (∀ j, j < k → ex (username ++ "." ++ suf (i + j)) = true) →
      uniqueLoop username ex suf i k = .error "Failed to generate unique username" := by
  intro k
  induction k with
  | zero => intro i _; rfl
  | succ n ih =>
    intro i h
    have h0 : ex (username ++ "." ++ suf i) = true := by
      have := h 0 (Nat.succ_pos n)
      simpa using this
    have hrest : ∀ j, j < n → ex (username ++ "." ++ suf (i + 1 + j)) = true := by
      intro j hj
      have := h (j + 1) (Nat.succ_lt_succ hj)
      have harr : i + (j + 1) = i + 1 + j := by omega
      rwa [harr] at this
    simp only [uniqueLoop, h0, if_true]
    exact ih (i + 1) hrest

/-- C7: when the sanitized base and the first 10 suffixed candidates are
all reported taken, the allocator stops with the exhaustion failure
instead of looping (the loop counter throws once `attempts > 10`). -/
theorem generateUniqueUsername_exhausts (base : String) (ex : String → Bool)
    (suf : Nat → String)
    (hbase : ex (generateUsername base) = true)
    (hsuf : ∀ j, j < 10 → ex (generateUsername base ++ "." ++ suf j) = true) :
    generateUniqueUsername base ex suf =
      .error "Failed to generate unique username" := by
  unfold generateUniqueUsername
  simp only [hbase, if_true]
  exact uniqueLoop_exhausts _ _ _ 10 0 (by simpa using hsuf)

/-- Closed instance of C7: an existence check that reports every
candidate taken makes the allocator fail after its bounded retries. -/
theorem generateUniqueUsername_exhausts_witness :
    ((fun _ : String => true) (generateUsername "Alice") = true ∧
      (∀ j : Nat, j < 10 →
        (fun _ : String => true)
          (generateUsername "Alice" ++ "." ++ (fun _ : Nat => "bcdfgh") j) = true)) ∧
    generateUniqueUsername "Alice" (fun _ => true) (fun _ => "bcdfgh") =
      .error "Failed to generate unique username" :=
  ⟨⟨rfl, fun _ _ => rfl⟩,
    generateUniqueUsername_exhausts "Alice" (fun _ => true) (fun _ => "bcdfgh")
      rfl (fun _ _ => rfl)⟩

/-- C8: with an existence check that always reports free, allocation
returns exactly the sanitized base, which is nonempty, at most 20
characters, drawn from `[a-z0-9]`, and is the literal fallback `"user"`
when sanitizing left nothing. -/
theorem generateUniqueUsername_free (base : String) (ex : String → Bool)
    (suf : Nat → String) (hfree : ∀ s, ex s = false) :
    generateUniqueUsername base ex suf = .ok (generateUsername base) ∧
    (generateUsername base).length ≤ 20 ∧
    generateUsername base ≠ "" ∧
    (∀ c ∈ (generateUsername base).data, isLowerAlnum c = true) ∧
    (sanitizeBase base = "" → generateUsername base = "user") := by
  refine ⟨?_, ?_, ?_, ?_, ?_⟩
  · unfold generateUniqueUsername
    simp [hfree]
  · unfold generateUsername
    by_cases h : sanitizeBase base = ""
    · simp only [h, if_true]
      decide
    · simp only [h, if_false]
      show (sanitizeBase base).data.length ≤ 20
      unfold sanitizeBase
      simp
  · unfold generateUsername
    by_cases h : sanitizeBase base = ""
    · simp [h]
    · simp [h]
  · unfold generateUsername
    by_cases h : sanitizeBase base = ""
    · simp only [h, if_true]
      intro c hc
      fin_cases hc <;> rfl
    · simp only [h, if_false]
      intro c hc
      have : c ∈ ((((jsTrim base.toList).map Char.toLower).filter
          (fun c => !jsWhitespace c)).filter isLowerAlnum) := by
        exact List.take_subset 20 _ (by simpa [sanitizeBase] using hc)
      exact (List.mem_filter.mp this).2
  · intro h
    unfold generateUsername
    simp [h]

/-- Closed instance of C8 at the base `" Ayo Luv!! "`. -/
theorem generateUniqueUsername_free_witness :
    (∀ s, (fun _ : String => false) s = false) ∧
    (generateUniqueUsername " Ayo Luv!! " (fun _ => false) (fun _ => "bcdfgh") =
        .ok (generateUsername " Ayo Luv!! ") ∧
      (generateUsername " Ayo Luv!! ").length ≤ 20 ∧
      generateUsername " Ayo Luv!! " ≠ "" ∧
      (∀ c ∈ (generateUsername " Ayo Luv!! ").data, isLowerAlnum c = true) ∧
      (sanitizeBase " Ayo Luv!! " = "" → generateUsername " Ayo Luv!! " = "user")) :=
  ⟨fun _ => rfl,
    generateUniqueUsername_free " Ayo Luv!! " (fun _ => false)
      (fun _ => "bcdfgh") (fun _ => rfl)⟩

theorem uniqueLoop_ok_shape (username : String) (ex : String → Bool)
    (suf : Nat → String) :
    ∀ k i u, uniqueLoop username ex suf i k = .ok u →
      ∃ j, u = username ++ "." ++ suf j := by
  intro k
  induction k with
  | zero => intro i u h; exact absurd h (by simp [uniqueLoop])
  | succ n ih =>
    intro i u h
    cases hex : ex (username ++ "." ++ suf i) with
    | true =>
      simp only [uniqueLoop, hex, if_true] at h
      exact ih (i + 1) u h
    | false =>
      simp [uniqueLoop, hex] at h
      exact ⟨i, h.symm⟩

theorem string_append_data (s t : String) : (s ++ t).data = s.data ++ t.data := rfl

/-- C9: a handle that got a collision suffix contains a dot, so `getUser`
rejects it with the 400 invalid-format error, without ever querying. -/
theorem getUser_rejects_suffixed (base : String) (ex : String → Bool)
    (suf : Nat → String) (u : String) (db : DB)
    (hbase : ex (generateUsername base) = true)
    (hok : generateUniqueUsername base ex suf = .ok u) :
    (getUser u db).result = .error (.httpError 400
      "Invalid username format. Only letters and numbers are allowed") ∧
    (getUser u db).queried = false := by
  unfold generateUniqueUsername at hok
  simp only [hbase, if_true] at hok
  obtain ⟨j, rfl⟩ := uniqueLoop_ok_shape _ _ _ 10 0 u hok
  have hdata : (generateUsername base ++ "." ++ suf j).data =
      (generateUsername base).data ++ '.' :: (suf j).data := by
    rw [string_append_data, string_append_data]
    have hd : ".".data = ['.'] := rfl
    rw [hd]
    simp
  have hdot : '.' ∈ (generateUsername base ++ "." ++ suf j).data := by
    rw [hdata]; simp
  have hne : generateUsername base ++ "." ++ suf j ≠ "" := by
    intro h
    have : (generateUsername base ++ "." ++ suf j).data = [] := by
      rw [h]
    rw [this] at hdot
    exact absurd hdot (List.not_mem_nil '.')
  have hregex : usernameRegexTest (generateUsername base ++ "." ++ suf j) = false := by
    unfold usernameRegexTest
    have : ((generateUsername base ++ "." ++ suf j).data.all
        (fun c => c.isAlpha || c.isDigit)) = false := by
      rw [List.all_eq_false]
      exact ⟨'.', hdot, by decide⟩
    simp [this]
  constructor <;> · unfold getUser; simp [hne, hregex]

/- ===================== Transactional Unit-of-Work =====================
   Source: src/utils/operations.ts lines 10-44. -/

/-- A MongoDB client session over a database state `σ`.  `db` is the
durable (committed) state, `pending` the state as seen through the
session while a transaction is open; `aborts` counts issued
`abortTransaction` calls and `ended` records `endSession`. -/
structure Session (σ : Type) where
  db : σ
  pending : σ
  inTransaction : Bool
  aborts : Nat
  ended : Bool
deriving DecidableEq, Repr

/-- `mongoose.startSession()`. -/
def startSession {σ : Type} (db : σ) : Session σ :=
  ⟨db, db, false, 0, false⟩

/-- `session.startTransaction()`: the pending view starts from the
durable state. -/
def startTransaction {σ : Type} (s : Session σ) : Session σ :=
  { s with inTransaction := true, pending := s.db }

/-- `session.commitTransaction()`: the pending writes become durable. -/
def commitTransaction {σ : Type} (s : Session σ) : Session σ :=
  { s with db := s.pending, inTransaction := false }

/-- `session.abortTransaction()`: the pending writes are discarded. -/
def abortTransaction {σ : Type} (s : Session σ) : Session σ :=
  { s with pending := s.db, inTransaction := false, aborts := s.aborts + 1 }

/-- `session.endSession()`. -/
def endSession {σ : Type} (s : Session σ) : Session σ :=
  { s with ended := true }

/-- Source `withTransaction` (operations.ts lines 10-44): start a session
and a transaction, run the body against the session, commit on normal
return; on failure abort only if the transaction is still active, and
re-raise the failure; end the session on every path.  A body issues its
writes against `Session.pending` and may itself commit or abort through
the session it returns. -/
def withTransaction {σ α ε : Type} (body : Session σ → Except ε α × Session σ)
    (db : σ) : Except ε α × Session σ :=
  let s := startTransaction (startSession db)
  match body s with
  | (.ok a, s2) => (.ok a, endSession (commitTransaction s2))
  | (.error e, s2) =>
      (.error e, endSession (if s2.inTransaction then abortTransaction s2 else s2))

/- ===================== theorem: C1 ===================== -/

/-- C1: if the body fails after any writes (all issued through the
session, so the durable state it hands back is still the pre-state),
the unit-of-work leaves the durable state exactly at the pre-state,
aborts only if the transaction is still active, re-raises the original
failure unchanged, and ends the session. -/
theorem withTransaction_bodyFailure {σ α ε : Type} (body : Session σ → Except ε α × Session σ)
    (db : σ) (e : ε) (s2 : Session σ)
    (hrun : body (startTransaction (startSession db)) = (.error e, s2))
    (hdb : s2.db = db) :
    (withTransaction body db).1 = (.error e : Except ε α) ∧
    (withTransaction body db).2.db = db ∧
    (withTransaction body db).2.aborts =
      s2.aborts + (if s2.inTransaction then 1 else 0) ∧
    (withTransaction body db).2.ended = true := by
  unfold withTransaction
  simp only [hrun]
  cases hin : s2.inTransaction <;>
    simp [endSession, abortTransaction, hin, hdb]

/-- Demonstration body for the C1 witness: performs two of its three
intended list-appends through the session, then raises. -/
def txDemoBody (s : Session (List Nat)) : Except String Unit × Session (List Nat) :=
  (.error "boom", { s with pending := s.pending ++ [1, 2] })

/-- Closed instance of C1: a body that raises after 2 of its 3 writes
commits none of them; the pre-state `[0]` is the post-state. -/
theorem withTransaction_bodyFailure_witness :
    (txDemoBody (startTransaction (startSession [0])) =
        ((.error "boom" : Except String Unit),
          ⟨[0], [0, 1, 2], true, 0, false⟩) ∧
      (⟨[0], [0, 1, 2], true, 0, false⟩ : Session (List Nat)).db = [0]) ∧
    ((withTransaction txDemoBody [0]).1 = (.error "boom" : Except String Unit) ∧
      (withTransaction txDemoBody [0]).2.db = [0] ∧
      (withTransaction txDemoBody [0]).2.aborts =
        (⟨[0], [0, 1, 2], true, 0, false⟩ : Session (List Nat)).aborts +
          (if (⟨[0], [0, 1, 2], true, 0, false⟩ : Session (List Nat)).inTransaction
            then 1 else 0) ∧
      (withTransaction txDemoBody [0]).2.ended = true) :=
  ⟨⟨rfl, rfl⟩,
    withTransaction_bodyFailure txDemoBody [0] "boom"
      ⟨[0], [0, 1, 2], true, 0, false⟩ rfl rfl⟩

/- ===================== Save-Toggle Coordinator =====================
   Source: src/utils/helper.ts lines 559-649 (toggleSaveRecipe). -/

/-- Mongo `$pull`: remove every occurrence. -/
def pull (l : List Nat) (x : Nat) : List Nat :=
  l.filter (fun y => y != x)

/-- Mongo `$addToSet`: append only if absent. -/
def addToSet (l : List Nat) (x : Nat) : List Nat :=
  if l.any (fun y => y == x) then l else l ++ [x]

/-- `Recipe.findByIdAndUpdate(id, upd, {session})`: apply `f` to the
documents with the given id. -/
def recipeUpdateById (db : DB) (id : Nat) (f : RecipeDoc → RecipeDoc) : DB :=
  { db with recipes := db.recipes.map (fun r => if r.id == id then f r else r) }

/-- `User.findByIdAndUpdate(id, upd, {session})`. -/
def userUpdateById (db : DB) (id : Nat) (f : UserDoc → UserDoc) : DB :=
  { db with users := db.users.map (fun u => if u.id == id then f u else u) }

/-- Update document `{$pull: {savedBy: userId}}`. -/
def pullSavedBy (uid : Nat) (r : RecipeDoc) : RecipeDoc :=
  { r with savedBy := pull r.savedBy uid }

/-- Update document `{$addToSet: {savedBy: userId}}`. -/
def addSavedBy (uid : Nat) (r : RecipeDoc) : RecipeDoc :=
  { r with savedBy := addToSet r.savedBy uid }

/-- Update document `{$pull: {savedRecipes: recipeId}}`. -/
def pullSavedRecipes (rid : Nat) (u : UserDoc) : UserDoc :=
  { u with savedRecipes := pull u.savedRecipes rid }

/-- Update document `{$addToSet: {savedRecipes: recipeId}}`. -/
def addSavedRecipes (rid : Nat) (u : UserDoc) : UserDoc :=
  { u with savedRecipes := addToSet u.savedRecipes rid }

/-- The JSON body of the toggle response. -/
structure ToggleResp where
  message : String
  isSaved : Bool
  saveCount : Nat
deriving DecidableEq, Repr

/-- Source `toggleSaveRecipe` (helper.ts lines 559-649): auth and input
checks, fetch user and recipe, reject self-save, then mutate both sides
of the bookmark relation inside the transaction; `saveCount` is read
from the updated recipe returned with `{new: true}` (`|| 0` when the
update returned nothing). -/
def toggleSaveRecipe (reqUser : Option Nat) (reqRecipeId : Option Nat) (db : DB) :
    Except JsErr (DB × ToggleResp) :=
  match reqUser with
  | none => .error (.httpError 401 "Unauthorized, user information not found")
  | some userId =>
  match reqRecipeId with
  | none => .error (.httpError 400 "Please provide a recipe ID")
  | some recipeId =>
  match findUser db userId with
  | none => .error (.httpError 404 "User not found")
  | some _user =>
  match findRecipe db recipeId with
  | none => .error (.httpError 404 "Recipe not found")
  | some recipe =>
  if recipe.createdBy == userId then
    .error (.httpError 400 "You cannot save your own recipe")
  else
    let isSaved := recipe.savedBy.any (fun y => y == userId)
    let dbR := if isSaved then recipeUpdateById db recipeId (pullSavedBy userId)
      else recipeUpdateById db recipeId (addSavedBy userId)
    let dbU := if isSaved then userUpdateById dbR userId (pullSavedRecipes recipeId)
      else userUpdateById dbR userId (addSavedRecipes recipeId)
    let saveCount := match findRecipe dbR recipeId with
      | some r => r.savedBy.length
      | none => 0
    .ok (dbU,
      ⟨if isSaved then "Recipe unsaved successfully" else "Recipe saved successfully",
        !isSaved, saveCount⟩)

/- ===================== list lemmas for the toggle ===================== -/

theorem find?_map_ite {β : Type} (l : List β) (p : β → Bool) (f : β → β)
    (hpf : ∀ b, p b = true → p (f b) = true) :
    (l.map (fun b => if p b then f b else b)).find? p = (l.find? p).map f := by
  induction l with
  | nil => rfl
  | cons a t ih =>
    cases hp : p a with
    | true => simp [List.find?_cons, hp, hpf a hp]
    | false => simpa [List.find?_cons, hp] using ih

theorem findRecipe_recipeUpdateById (db : DB) (rid : Nat) (f : RecipeDoc → RecipeDoc)
    (hf : ∀ r, (f r).id = r.id) :
    findRecipe (recipeUpdateById db rid f) rid = (findRecipe db rid).map f := by
  unfold findRecipe recipeUpdateById
  exact find?_map_ite _ _ _ (fun r hr => by rw [hf r]; exact hr)

theorem findUser_userUpdateById (db : DB) (uid : Nat) (f : UserDoc → UserDoc)
    (hf : ∀ u, (f u).id = u.id) :
    findUser (userUpdateById db uid f) uid = (findUser db uid).map f := by
  unfold findUser userUpdateById
  exact find?_map_ite _ _ _ (fun u hu => by rw [hf u]; exact hu)

theorem findRecipe_userUpdateById (db : DB) (uid : Nat) (f : UserDoc → UserDoc)
    (rid : Nat) : findRecipe (userUpdateById db uid f) rid = findRecipe db rid := rfl

theorem findUser_recipeUpdateById (db : DB) (rid : Nat) (f : RecipeDoc → RecipeDoc)
    (uid : Nat) : findUser (recipeUpdateById db rid f) uid = findUser db uid := rfl

theorem any_pull_self (l : List Nat) (x : Nat) :
    (pull l x).any (fun y => y == x) = false := by
  rw [List.any_eq_false]
  intro a ha
  have h2 := (List.mem_filter.mp ha).2
  simpa using h2

theorem any_addToSet_self (l : List Nat) (x : Nat) :
    (addToSet l x).any (fun y => y == x) = true := by
  unfold addToSet
  cases h : l.any (fun y => y == x) with
  | true => simpa using h
  | false => simp

theorem pull_of_any_false (l : List Nat) (x : Nat)
    (h : l.any (fun y => y == x) = false) : pull l x = l := by
  unfold pull
  rw [List.filter_eq_self]
  intro a ha
  have := List.any_eq_false.mp h a ha
  simpa using this

theorem pull_append_self (l : List Nat) (x : Nat) :
    pull (l ++ [x]) x = pull l x := by
  unfold pull
  rw [List.filter_append]
  simp

theorem length_pull_add_count (l : List Nat) (x : Nat) :
    (pull l x).length + l.count x = l.length := by
  induction l with
  | nil => rfl
  | cons a t ih =>
    by_cases h : a = x
    · subst h
      have h1 : pull (a :: t) a = pull t a := by simp [pull, List.filter_cons]
      have h2 : (a :: t).count a = t.count a + 1 := List.count_cons_self a t
      rw [h1, h2, List.length_cons]
      omega
    · have hbne : (a != x) = true := by simpa using h
      have h1 : pull (a :: t) x = a :: pull t x := by
        simp [pull, List.filter_cons, hbne]
      have h2 : (a :: t).count x = t.count x := by
        rw [List.count_cons]
        simp [h]
      rw [h1, List.length_cons, h2, List.length_cons]
      omega

theorem not_mem_pull (l : List Nat) (x : Nat) : x ∉ pull l x := by
  intro hx
  have h := any_pull_self l x
  rw [List.any_eq_false] at h
  have := h x hx
  simp at this

theorem mem_addToSet_self (l : List Nat) (x : Nat) : x ∈ addToSet l x := by
  unfold addToSet
  cases h : l.any (fun y => y == x) with
  | true =>
    rw [List.any_eq_true] at h
    obtain ⟨a, ha, hax⟩ := h
    have hax2 : a = x := by simpa using hax
    subst hax2
    simpa using ha
  | false => simp

/-- C2: after any completed toggle, the two sides of the bookmark
relation agree for the toggling pair: the user appears in the recipe's
saved-by set exactly when the recipe appears in the user's saved set,
and the reported `isSaved` tells which way the toggle went. -/
theorem toggleSaveRecipe_bothSidesAgree (uid rid : Nat) (db dbU : DB)
    (resp : ToggleResp)
    (h : toggleSaveRecipe (some uid) (some rid) db = .ok (dbU, resp)) :
    ∃ u r, findUser dbU uid = some u ∧ findRecipe dbU rid = some r ∧
      (uid ∈ r.savedBy ↔ rid ∈ u.savedRecipes) ∧
      (resp.isSaved = true ↔ uid ∈ r.savedBy) := by
  unfold toggleSaveRecipe at h
  cases hu0 : findUser db uid with
  | none => simp [hu0] at h
  | some u0 =>
  cases hr0 : findRecipe db rid with
  | none => simp [hu0, hr0] at h
  | some r0 =>
  cases hcb : r0.createdBy == uid with
  | true => simp [hu0, hr0, hcb] at h
  | false =>
  cases hs : r0.savedBy.any (fun y => y == uid) with
  | true =>
    have hsaveR : findRecipe (recipeUpdateById db rid (pullSavedBy uid)) rid =
        some (pullSavedBy uid r0) := by
      rw [findRecipe_recipeUpdateById db rid (pullSavedBy uid) (fun r => rfl), hr0]
      rfl
    simp only [hu0, hr0, hcb, hs, hsaveR, Bool.false_eq_true, if_false, if_true,
      Except.ok.injEq, Prod.mk.injEq] at h
    obtain ⟨hdbU, hresp⟩ := h
    subst hdbU
    subst hresp
    refine ⟨pullSavedRecipes rid u0, pullSavedBy uid r0, ?_, ?_, ?_, ?_⟩
    · rw [findUser_userUpdateById _ uid (pullSavedRecipes rid) (fun u => rfl),
        findUser_recipeUpdateById, hu0]
      rfl
    · rw [findRecipe_userUpdateById, hsaveR]
    · constructor
      · intro hm; exact absurd hm (not_mem_pull _ _)
      · intro hm; exact absurd hm (not_mem_pull _ _)
    · constructor
      · intro hfalse; simp at hfalse
      · intro hm; exact absurd hm (not_mem_pull _ _)
  | false =>
    have hsaveR : findRecipe (recipeUpdateById db rid (addSavedBy uid)) rid =
        some (addSavedBy uid r0) := by
      rw [findRecipe_recipeUpdateById db rid (addSavedBy uid) (fun r => rfl), hr0]
      rfl
    simp only [hu0, hr0, hcb, hs, hsaveR, Bool.false_eq_true, if_false, if_true,
      Except.ok.injEq, Prod.mk.injEq] at h
    obtain ⟨hdbU, hresp⟩ := h
    subst hdbU
    subst hresp
    refine ⟨addSavedRecipes rid u0, addSavedBy uid r0, ?_, ?_, ?_, ?_⟩
    · rw [findUser_userUpdateById _ uid (addSavedRecipes rid) (fun u => rfl),
        findUser_recipeUpdateById, hu0]
      rfl
    · rw [findRecipe_userUpdateById, hsaveR]
    · constructor
      · intro _; exact mem_addToSet_self _ _
      · intro _; exact mem_addToSet_self _ _
    · constructor
      · intro _; exact mem_addToSet_self _ _
      · intro _; rfl

/-- Pre-state for the closed C2 instance. -/
def c2dbPre : DB :=
  ⟨[⟨2, "bob", "creator", []⟩],
    [⟨1, 10, [], "Jollof", "rice", 30, "easy", 4, "Nigerian",
      ["cal"], ["rice"], ["cook"], none⟩]⟩

/-- Post-state for the closed C2 instance. -/
def c2dbPost : DB :=
  ⟨[⟨2, "bob", "creator", [1]⟩],
    [⟨1, 10, [2], "Jollof", "rice", 30, "easy", 4, "Nigerian",
      ["cal"], ["rice"], ["cook"], none⟩]⟩

/-- Response for the closed C2 instance. -/
def c2resp : ToggleResp := ⟨"Recipe saved successfully", true, 1⟩

/-- Closed instance of C2: user 2 toggles recipe 1 (created by user 10)
from the unsaved state; afterwards both sides record the edge. -/
theorem toggleSaveRecipe_bothSidesAgree_witness :
    toggleSaveRecipe (some 2) (some 1) c2dbPre = .ok (c2dbPost, c2resp) ∧
    (∃ u r, findUser c2dbPost 2 = some u ∧ findRecipe c2dbPost 1 = some r ∧
      ((2 : Nat) ∈ r.savedBy ↔ (1 : Nat) ∈ u.savedRecipes) ∧
      (c2resp.isSaved = true ↔ (2 : Nat) ∈ r.savedBy)) :=
  ⟨by rfl, toggleSaveRecipe_bothSidesAgree 2 1 c2dbPre c2dbPost c2resp (by rfl)⟩

/-- C3: toggling the same (user, recipe) pair twice returns to the
original state: the second response undoes the first (`isSaved` flips
back to the pre-toggle membership) and the reported `saveCount` equals
the saved-by size before the first toggle.  The recipe is assumed
well-formed (its saved-by set holds the user at most once, which Mongo
`$addToSet` maintains). -/
theorem toggleSaveRecipe_twice_restores (uid rid : Nat) (db db1 : DB)
    (resp1 : ToggleResp) (r0 : RecipeDoc)
    (hr0 : findRecipe db rid = some r0)
    (hcnt : r0.savedBy.count uid ≤ 1)
    (h1 : toggleSaveRecipe (some uid) (some rid) db = .ok (db1, resp1)) :
    ∃ db2 resp2, toggleSaveRecipe (some uid) (some rid) db1 = .ok (db2, resp2) ∧
      resp2.isSaved = !resp1.isSaved ∧
      resp2.isSaved = r0.savedBy.any (fun y => y == uid) ∧
      resp2.saveCount = r0.savedBy.length := by
  unfold toggleSaveRecipe at h1
  cases hu0 : findUser db uid with
  | none => simp [hu0] at h1
  | some u0 =>
  cases hcb : r0.createdBy == uid with
  | true => simp [hu0, hr0, hcb] at h1
  | false =>
  cases hs : r0.savedBy.any (fun y => y == uid) with
  | true =>
    -- first toggle removed the edge
    have hsaveR : findRecipe (recipeUpdateById db rid (pullSavedBy uid)) rid =
        some (pullSavedBy uid r0) := by
      rw [findRecipe_recipeUpdateById db rid (pullSavedBy uid) (fun r => rfl), hr0]
      rfl
    simp only [hu0, hr0, hcb, hs, hsaveR, Bool.false_eq_true, if_false, if_true,
      Except.ok.injEq, Prod.mk.injEq] at h1
    obtain ⟨hdb1, hresp1⟩ := h1
    subst hdb1
    subst hresp1
    have hfu1 : findUser (userUpdateById (recipeUpdateById db rid (pullSavedBy uid))
        uid (pullSavedRecipes rid)) uid = some (pullSavedRecipes rid u0) := by
      rw [findUser_userUpdateById _ uid (pullSavedRecipes rid) (fun u => rfl),
        findUser_recipeUpdateById, hu0]
      rfl
    have hfr1 : findRecipe (userUpdateById (recipeUpdateById db rid (pullSavedBy uid))
        uid (pullSavedRecipes rid)) rid = some (pullSavedBy uid r0) := by
      rw [findRecipe_userUpdateById, hsaveR]
    have hcb1 : ((pullSavedBy uid r0).createdBy == uid) = false := hcb
    have hs1 : ((pullSavedBy uid r0).savedBy.any (fun y => y == uid)) = false :=
      any_pull_self r0.savedBy uid
    have hsave2 : findRecipe (recipeUpdateById
        (userUpdateById (recipeUpdateById db rid (pullSavedBy uid)) uid
          (pullSavedRecipes rid)) rid (addSavedBy uid)) rid =
        some (addSavedBy uid (pullSavedBy uid r0)) := by
      rw [findRecipe_recipeUpdateById _ rid (addSavedBy uid) (fun r => rfl), hfr1]
      rfl
    refine ⟨userUpdateById (recipeUpdateById (userUpdateById (recipeUpdateById db rid
        (pullSavedBy uid)) uid (pullSavedRecipes rid)) rid (addSavedBy uid)) uid
        (addSavedRecipes rid),
      ⟨"Recipe saved successfully", true,
        (addSavedBy uid (pullSavedBy uid r0)).savedBy.length⟩, ?_, ?_, ?_, ?_⟩
    · unfold toggleSaveRecipe
      simp only [hfu1, hfr1, hcb1, hs1, hsave2, Bool.false_eq_true, if_false,
        if_true, Bool.not_false]
    · rfl
    · rfl
    · show (addSavedBy uid (pullSavedBy uid r0)).savedBy.length = r0.savedBy.length
      have hmem : uid ∈ r0.savedBy := by
        obtain ⟨a, ha, hax⟩ := List.any_eq_true.mp hs
        have : a = uid := by simpa using hax
        subst this
        exact ha
      have hone : r0.savedBy.count uid = 1 := by
        have := List.count_pos_iff.mpr hmem
        omega
      have hlen := length_pull_add_count r0.savedBy uid
      show (addToSet (pull r0.savedBy uid) uid).length = r0.savedBy.length
      unfold addToSet
      rw [any_pull_self]
      simp only [Bool.false_eq_true, if_false, List.length_append, List.length_cons,
        List.length_nil]
      omega
  | false =>
    -- first toggle added the edge
    have hsaveR : findRecipe (recipeUpdateById db rid (addSavedBy uid)) rid =
        some (addSavedBy uid r0) := by
      rw [findRecipe_recipeUpdateById db rid (addSavedBy uid) (fun r => rfl), hr0]
      rfl
    simp only [hu0, hr0, hcb, hs, hsaveR, Bool.false_eq_true, if_false, if_true,
      Except.ok.injEq, Prod.mk.injEq] at h1
    obtain ⟨hdb1, hresp1⟩ := h1
    subst hdb1
    subst hresp1
    have hfu1 : findUser (userUpdateById (recipeUpdateById db rid (addSavedBy uid))
        uid (addSavedRecipes rid)) uid = some (addSavedRecipes rid u0) := by
      rw [findUser_userUpdateById _ uid (addSavedRecipes rid) (fun u => rfl),
        findUser_recipeUpdateById, hu0]
      rfl
    have hfr1 : findRecipe (userUpdateById (recipeUpdateById db rid (addSavedBy uid))
        uid (addSavedRecipes rid)) rid = some (addSavedBy uid r0) := by
      rw [findRecipe_userUpdateById, hsaveR]
    have hcb1 : ((addSavedBy uid r0).createdBy == uid) = false := hcb
    have hs1 : ((addSavedBy uid r0).savedBy.any (fun y => y == uid)) = true :=
      any_addToSet_self r0.savedBy uid
    have hsave2 : findRecipe (recipeUpdateById
        (userUpdateById (recipeUpdateById db rid (addSavedBy uid)) uid
          (addSavedRecipes rid)) rid (pullSavedBy uid)) rid =
        some (pullSavedBy uid (addSavedBy uid r0)) := by
      rw [findRecipe_recipeUpdateById _ rid (pullSavedBy uid) (fun r => rfl), hfr1]
      rfl
    refine ⟨userUpdateById (recipeUpdateById (userUpdateById (recipeUpdateById db rid
        (addSavedBy uid)) uid (addSavedRecipes rid)) rid (pullSavedBy uid)) uid
        (pullSavedRecipes rid),
      ⟨"Recipe unsaved successfully", false,
        (pullSavedBy uid (addSavedBy uid r0)).savedBy.length⟩, ?_, ?_, ?_, ?_⟩
    · unfold toggleSaveRecipe
      simp only [hfu1, hfr1, hcb1, hs1, hsave2, Bool.false_eq_true, if_false,
        if_true, Bool.not_true]
    · rfl
    · rfl
    · show (pullSavedBy uid (addSavedBy uid r0)).savedBy.length = r0.savedBy.length
      show (pull (addToSet r0.savedBy uid) uid).length = r0.savedBy.length
      unfold addToSet
      rw [hs]
      simp only [Bool.false_eq_true, if_false]
      rw [pull_append_self, pull_of_any_false r0.savedBy uid hs]

/-- Closed instance of C3: user 2 unsaves then re-saves recipe 1; the
second response restores the original saved state and count. -/
theorem toggleSaveRecipe_twice_restores_witness :
    (findRecipe ⟨[⟨2, "bob", "creator", [1]⟩],
        [⟨1, 10, [2, 7], "Jollof", "rice", 30, "easy", 4, "Nigerian",
          ["cal"], ["rice"], ["cook"], none⟩]⟩ 1 =
      some ⟨1, 10, [2, 7], "Jollof", "rice", 30, "easy", 4, "Nigerian",
        ["cal"], ["rice"], ["cook"], none⟩ ∧
      (⟨1, 10, [2, 7], "Jollof", "rice", 30, "easy", 4, "Nigerian",
        ["cal"], ["rice"], ["cook"], none⟩ : RecipeDoc).savedBy.count 2 ≤ 1) ∧
    (∃ db2 resp2,
      toggleSaveRecipe (some 2) (some 1)
        ⟨[⟨2, "bob", "creator", []⟩],
          [⟨1, 10, [7], "Jollof", "rice", 30, "easy", 4, "Nigerian",
            ["cal"], ["rice"], ["cook"], none⟩]⟩ = .ok (db2, resp2) ∧
      resp2.isSaved = !(⟨"Recipe unsaved successfully", false, 1⟩ : ToggleResp).isSaved ∧
      resp2.isSaved = (⟨1, 10, [2, 7], "Jollof", "rice", 30, "easy", 4, "Nigerian",
        ["cal"], ["rice"], ["cook"], none⟩ : RecipeDoc).savedBy.any (fun y => y == 2) ∧
      resp2.saveCount = (⟨1, 10, [2, 7], "Jollof", "rice", 30, "easy", 4, "Nigerian",
        ["cal"], ["rice"], ["cook"], none⟩ : RecipeDoc).savedBy.length) :=
  ⟨⟨by rfl, by decide⟩,
    toggleSaveRecipe_twice_restores 2 1
      ⟨[⟨2, "bob", "creator", [1]⟩],
        [⟨1, 10, [2, 7], "Jollof", "rice", 30, "easy", 4, "Nigerian",
          ["cal"], ["rice"], ["cook"], none⟩]⟩
      ⟨[⟨2, "bob", "creator", []⟩],
        [⟨1, 10, [7], "Jollof", "rice", 30, "easy", 4, "Nigerian",
          ["cal"], ["rice"], ["cook"], none⟩]⟩
      ⟨"Recipe unsaved successfully", false, 1⟩
      ⟨1, 10, [2, 7], "Jollof", "rice", 30, "easy", 4, "Nigerian",
        ["cal"], ["rice"], ["cook"], none⟩
      (by rfl) (by decide) (by rfl)⟩

/- ===================== Recipe creation =====================
   Source: src/utils/helper.ts lines 79-206 (createRecipe) and
   lines 49-59 (optimizeImage). -/

/-- Result of the `JSON.parse` capability: a decoded array with its
elements (abstracted to strings), or some non-array JSON value. -/
inductive JsParsed where
  | jsArray (elems : List String)
  | jsOther (tag : String)
deriving DecidableEq, Repr

/-- `JSON.parse` applied to a form field: a missing field coerces to the
string `"undefined"`, which never parses. -/
def jsParse (parse : String → Option JsParsed) : Option String → Option JsParsed
  | none => none
  | some s => parse s

/-- The string `JSON.parse` received (for the raised parse failure). -/
def jsFieldStr : Option String → String
  | none => "undefined"
  | some s => s

/-- JS truthiness of a form-data field: absent or empty string is falsy. -/
def fieldTruthy : Option String → Bool
  | none => false
  | some s => !(s == "")

/-- Mongoose numeric cast of a form string (model of `Number(x)`). -/
def mongoNumber (s : String) : Int := s.toInt?.getD 0

/-- The create request: `req.user`, the form-data fields, `req.file`. -/
structure CreateReq where
  user : Option Nat
  name : Option String
  desc : Option String
  prepTime : Option String
  difficulty : Option String
  serving : Option String
  cuisine : Option String
  nutritionFacts : Option String
  ingredients : Option String
  instructions : Option String
  file : Option Nat
deriving Repr

/-- The `requiredFields` list of `createRecipe`, paired with the value
each name selects from the form data (`nutritionFacts` is not in it). -/
def requiredFields (req : CreateReq) : List (String × Option String) :=
  [("name", req.name), ("desc", req.desc), ("prepTime", req.prepTime),
    ("difficulty", req.difficulty), ("serving", req.serving),
    ("cuisine", req.cuisine), ("ingredients", req.ingredients),
    ("instructions", req.instructions)]

/-- `requiredFields.filter((field) => !formData[field])`. -/
def missingFields (req : CreateReq) : List String :=
  ((requiredFields req).filter (fun p => !fieldTruthy p.2)).map (fun p => p.1)

/-- `Array.isArray(x) && x.length > 0`. -/
def isNonEmptyArray : JsParsed → Bool
  | .jsArray [] => false
  | .jsArray (_ :: _) => true
  | .jsOther _ => false

/-- Elements of a parsed array value. -/
def elemsOf : JsParsed → List String
  | .jsArray l => l
  | .jsOther _ => []

/-- Outcome of a create call: the response or raised error, the
resulting database, and the number of attempted document inserts and
upload calls. -/
structure CreateOutcome where
  result : Except JsErr (Option RecipeDoc)
  db : DB
  dbWrites : Nat
  uploads : Nat
deriving Repr

/-- Source `optimizeImage` (helper.ts lines 49-59): the sharp pipeline
outcome is the capability `sharpRes`; on failure the function logs and
throws a fresh error with no status set. -/
def optimizeImage (sharpRes : Except String Nat) : Except JsErr Nat :=
  match sharpRes with
  | .ok buf => .ok buf
  | .error _ => .error (.plainError "Failed to process image")

/-- Source `createRecipe` (helper.ts lines 79-206): auth check, required
scalar fields, `JSON.parse` of the three array fields (ingredients,
instructions, nutrition facts, in source order), non-empty-array
validation (nutrition first), image presence, then a try block that
optimizes, uploads, inserts the document in the transaction and re-reads
it; every failure inside the try block is caught and re-thrown as the
500 upload failure. -/
def createRecipe (parse : String → Option JsParsed) (sharpRes : Except String Nat)
    (uploadRes : Except String ImageRef) (newId : Nat) (req : CreateReq)
    (db : DB) : CreateOutcome :=
  match req.user with
  | none => ⟨.error (.httpError 401 "Unauthorized, user information not found"),
      db, 0, 0⟩
  | some uid =>
    if (missingFields req).length > 0 then
      ⟨.error (.httpError 400 ("Missing required fields: " ++
        String.intercalate ", " (missingFields req))), db, 0, 0⟩
    else
      match jsParse parse req.ingredients with
      | none => ⟨.error (.parseFailure (jsFieldStr req.ingredients)), db, 0, 0⟩
      | some ingredientsArr =>
      match jsParse parse req.instructions with
      | none => ⟨.error (.parseFailure (jsFieldStr req.instructions)), db, 0, 0⟩
      | some instructionsArr =>
      match jsParse parse req.nutritionFacts with
      | none => ⟨.error (.parseFailure (jsFieldStr req.nutritionFacts)), db, 0, 0⟩
      | some nutritionFactsArr =>
      if !isNonEmptyArray nutritionFactsArr then
        ⟨.error (.httpError 400 "Nutrition facts must be a non-empty array"), db, 0, 0⟩
      else if !isNonEmptyArray ingredientsArr then
        ⟨.error (.httpError 400 "Ingredients must be a non-empty array"), db, 0, 0⟩
      else if !isNonEmptyArray instructionsArr then
        ⟨.error (.httpError 400 "Instructions must be a non-empty array"), db, 0, 0⟩
      else
      match req.file with
      | none => ⟨.error (.httpError 400 "Recipe image is required"), db, 0, 0⟩
      | some _buf =>
        match optimizeImage sharpRes with
        | .error _ => ⟨.error (.httpError 500 "Failed to upload recipe image"),
            db, 0, 0⟩
        | .ok _optimized =>
          match uploadRes with
          | .error _ => ⟨.error (.httpError 500 "Failed to upload recipe image"),
              db, 0, 1⟩
          | .ok img =>
            let doc : RecipeDoc :=
              { id := newId, createdBy := uid, savedBy := [],
                name := req.name.getD "", desc := req.desc.getD "",
                prepTime := mongoNumber (req.prepTime.getD ""),
                difficulty := req.difficulty.getD "",
                serving := mongoNumber (req.serving.getD ""),
                cuisine := req.cuisine.getD "",
                nutritionFacts := elemsOf nutritionFactsArr,
                ingredients := elemsOf ingredientsArr,
                instructions := elemsOf instructionsArr,
                image := some img }
            let db2 : DB := { db with recipes := db.recipes ++ [doc] }
            ⟨.ok (findRecipe db2 newId), db2, 1, 1⟩

/-- Concrete model of `JSON.parse` for the closed instances: `"[]"` is
the empty array, `"[1]"` a one-element array, anything else fails. -/
def parseDemo (s : String) : Option JsParsed :=
  if s == "[]" then some (.jsArray [])
  else if s == "[1]" then some (.jsArray ["1"])
  else none

/-- Recognizer for a raised 400 ValidationError. -/
def isValidation400 : Except JsErr (Option RecipeDoc) → Bool
  | .error (.httpError 400 _) => true
  | _ => false

/-- Create request with `ingredients = "[]"` whose instructions field is
not valid JSON. -/
def c4req : CreateReq :=
  ⟨some 7, some "x", some "x", some "5", some "easy", some "2", some "x",
    some "[1]", some "[]", some "oops", some 1⟩

/-- C4 counterexample: a create request with `ingredients = "[]"` whose
instructions field fails to decode raises the raw JSON parse failure
(no status set, surfaced as 500), not a 400 ValidationError, refuting
the claim that every such request fails with a ValidationError; the
zero-writes and zero-uploads part still holds on this input. -/
theorem createRecipe_emptyIngredients_counterexample :
    (createRecipe parseDemo (.ok 1) (.ok ⟨"pid", "url"⟩) 5 c4req ⟨[], []⟩).result =
      .error (.parseFailure "oops") ∧
    isValidation400
      (createRecipe parseDemo (.ok 1) (.ok ⟨"pid", "url"⟩) 5 c4req ⟨[], []⟩).result
      = false ∧
    (createRecipe parseDemo (.ok 1) (.ok ⟨"pid", "url"⟩) 5 c4req ⟨[], []⟩).dbWrites
      = 0 ∧
    (createRecipe parseDemo (.ok 1) (.ok ⟨"pid", "url"⟩) 5 c4req ⟨[], []⟩).uploads
      = 0 :=
  ⟨rfl, rfl, rfl, rfl⟩

/-- C4 amended: for an authenticated create request with
`ingredients = "[]"` whose other two JSON fields decode successfully,
the call fails with a 400 ValidationError (naming the missing fields,
the nutrition facts, or the ingredients) and performs zero database
writes and zero upload calls, leaving the database unchanged. -/
theorem createRecipe_emptyIngredients_validation
    (parse : String → Option JsParsed) (sharpRes : Except String Nat)
    (uploadRes : Except String ImageRef) (newId : Nat) (req : CreateReq)
    (db : DB) (uid : Nat)
    (huser : req.user = some uid)
    (hing : req.ingredients = some "[]")
    (hparse : parse "[]" = some (.jsArray []))
    (hins : jsParse parse req.instructions ≠ none)
    (hnut : jsParse parse req.nutritionFacts ≠ none) :
    (∃ m, (createRecipe parse sharpRes uploadRes newId req db).result =
      .error (.httpError 400 m)) ∧
    (createRecipe parse sharpRes uploadRes newId req db).dbWrites = 0 ∧
    (createRecipe parse sharpRes uploadRes newId req db).uploads = 0 ∧
    (createRecipe parse sharpRes uploadRes newId req db).db = db := by
  obtain ⟨insV, hinsV⟩ : ∃ v, jsParse parse req.instructions = some v := by
    cases hx : jsParse parse req.instructions with
    | none => exact absurd hx hins
    | some v => exact ⟨v, rfl⟩
  obtain ⟨nutV, hnutV⟩ : ∃ v, jsParse parse req.nutritionFacts = some v := by
    cases hx : jsParse parse req.nutritionFacts with
    | none => exact absurd hx hnut
    | some v => exact ⟨v, rfl⟩
  have hingV : jsParse parse req.ingredients = some (.jsArray []) := by
    rw [hing]
    exact hparse
  unfold createRecipe
  by_cases hm : (missingFields req).length > 0
  · simp only [huser, hm, if_true]
    exact ⟨⟨_, rfl⟩, by trivial, by trivial, by trivial⟩
  · simp only [huser, hm, if_false, hingV, hinsV, hnutV]
    cases hne : isNonEmptyArray nutV with
    | false =>
      simp only [Bool.not_false, if_true]
      exact ⟨⟨_, rfl⟩, by trivial, by trivial, by trivial⟩
    | true =>
      simp only [Bool.not_true, Bool.false_eq_true, if_false]
      exact ⟨⟨_, rfl⟩, by trivial, by trivial, by trivial⟩

/-- Request with `ingredients = "[]"` and otherwise valid fields. -/
def c4wreq : CreateReq :=
  ⟨some 7, some "x", some "x", some "5", some "easy", some "2", some "x",
    some "[1]", some "[]", some "[1]", some 1⟩

/-- Closed instance of the amended C4: the otherwise-valid request with
empty ingredients fails with a 400 ValidationError, no write, no upload. -/
theorem createRecipe_emptyIngredients_validation_witness :
    (c4wreq.user = some 7 ∧
      c4wreq.ingredients = some "[]" ∧
      parseDemo "[]" = some (.jsArray []) ∧
      jsParse parseDemo c4wreq.instructions ≠ none ∧
      jsParse parseDemo c4wreq.nutritionFacts ≠ none) ∧
    ((∃ m, (createRecipe parseDemo (.ok 1) (.ok ⟨"pid", "url"⟩) 5 c4wreq
        ⟨[], []⟩).result = .error (.httpError 400 m)) ∧
      (createRecipe parseDemo (.ok 1) (.ok ⟨"pid", "url"⟩) 5 c4wreq
        ⟨[], []⟩).dbWrites = 0 ∧
      (createRecipe parseDemo (.ok 1) (.ok ⟨"pid", "url"⟩) 5 c4wreq
        ⟨[], []⟩).uploads = 0 ∧
      (createRecipe parseDemo (.ok 1) (.ok ⟨"pid", "url"⟩) 5 c4wreq
        ⟨[], []⟩).db = ⟨[], []⟩) :=
  ⟨⟨rfl, rfl, rfl, by decide, by decide⟩,
    createRecipe_emptyIngredients_validation parseDemo (.ok 1) (.ok ⟨"pid", "url"⟩)
      5 c4wreq ⟨[], []⟩ 7 rfl rfl rfl (by decide) (by decide)⟩

/-- C5 amended: on an otherwise-valid authenticated create request, a
failure of the optimize step fails the call before any database write
with the 500 upload-failure error (the processing failure is wrapped by
the catch-all), and a failure of the upload step fails the call with the
same error and no database write; the two conditions surface
identically. -/
theorem createRecipe_imageFailures (parse : String → Option JsParsed)
    (newId : Nat) (req : CreateReq) (db : DB) (uid : Nat)
    (ingV insV nutV : JsParsed) (buf : Nat)
    (huser : req.user = some uid)
    (hmiss : (missingFields req).length = 0)
    (hingV : jsParse parse req.ingredients = some ingV)
    (hinsV : jsParse parse req.instructions = some insV)
    (hnutV : jsParse parse req.nutritionFacts = some nutV)
    (hne1 : isNonEmptyArray nutV = true)
    (hne2 : isNonEmptyArray ingV = true)
    (hne3 : isNonEmptyArray insV = true)
    (hfile : req.file = some buf) :
    (∀ serr uploadRes, createRecipe parse (.error serr) uploadRes newId req db =
      ⟨.error (.httpError 500 "Failed to upload recipe image"), db, 0, 0⟩) ∧
    (∀ b uerr, createRecipe parse (.ok b) (.error uerr) newId req db =
      ⟨.error (.httpError 500 "Failed to upload recipe image"), db, 0, 1⟩) := by
  constructor
  · intro serr uploadRes
    unfold createRecipe
    simp [huser, hmiss, hingV, hinsV, hnutV, hne1, hne2, hne3, hfile, optimizeImage]
  · intro b uerr
    unfold createRecipe
    simp [huser, hmiss, hingV, hinsV, hnutV, hne1, hne2, hne3, hfile, optimizeImage]

/-- Valid create request for the C5 instances. -/
def c5req : CreateReq :=
  ⟨some 7, some "x", some "x", some "5", some "easy", some "2", some "x",
    some "[1]", some "[1]", some "[1]", some 1⟩

/-- C5 counterexample: on the same valid request, an optimize failure
and an upload failure produce the identical raised error (the 500
"Failed to upload recipe image"), so the optimize failure is not
surfaced as a distinct processing-failure condition. -/
theorem createRecipe_imageFailures_counterexample :
    (createRecipe parseDemo (.error "sharp crashed") (.ok ⟨"pid", "url"⟩) 5 c5req
      ⟨[], []⟩).result = .error (.httpError 500 "Failed to upload recipe image") ∧
    (createRecipe parseDemo (.ok 1) (.error "cloudinary down") 5 c5req
      ⟨[], []⟩).result = .error (.httpError 500 "Failed to upload recipe image") ∧
    (createRecipe parseDemo (.error "sharp crashed") (.ok ⟨"pid", "url"⟩) 5 c5req
      ⟨[], []⟩).result =
      (createRecipe parseDemo (.ok 1) (.error "cloudinary down") 5 c5req
        ⟨[], []⟩).result :=
  ⟨rfl, rfl, rfl⟩

/-- Closed instance of the amended C5 at the valid request `c5req`. -/
theorem createRecipe_imageFailures_witness :
    (c5req.user = some 7 ∧
      (missingFields c5req).length = 0 ∧
      jsParse parseDemo c5req.ingredients = some (.jsArray ["1"]) ∧
      jsParse parseDemo c5req.instructions = some (.jsArray ["1"]) ∧
      jsParse parseDemo c5req.nutritionFacts = some (.jsArray ["1"]) ∧
      isNonEmptyArray (.jsArray ["1"]) = true ∧
      c5req.file = some 1) ∧
    createRecipe parseDemo (.error "sharp crashed") (.ok ⟨"pid", "url"⟩) 5 c5req
      ⟨[], []⟩ =
      ⟨.error (.httpError 500 "Failed to upload recipe image"), ⟨[], []⟩, 0, 0⟩ ∧
    createRecipe parseDemo (.ok 1) (.error "cloudinary down") 5 c5req ⟨[], []⟩ =
      ⟨.error (.httpError 500 "Failed to upload recipe image"), ⟨[], []⟩, 0, 1⟩ :=
  ⟨⟨rfl, rfl, rfl, rfl, rfl, rfl, rfl⟩,
    (createRecipe_imageFailures parseDemo 5 c5req ⟨[], []⟩ 7
      (.jsArray ["1"]) (.jsArray ["1"]) (.jsArray ["1"]) 1
      rfl rfl rfl rfl rfl rfl rfl rfl rfl).1 "sharp crashed" (.ok ⟨"pid", "url"⟩),
    (createRecipe_imageFailures parseDemo 5 c5req ⟨[], []⟩ 7
      (.jsArray ["1"]) (.jsArray ["1"]) (.jsArray ["1"]) 1
      rfl rfl rfl rfl rfl rfl rfl rfl rfl).2 1 "cloudinary down"⟩

/-- Closed instance of C9: `"Alice"` sanitizes to `"alice"`, which is
taken, so allocation yields the suffixed `"alice.bcdfgh"`, and `getUser`
rejects that handle without querying. -/
theorem getUser_rejects_suffixed_witness :
    ((fun s : String => s == "alice") (generateUsername "Alice") = true ∧
      generateUniqueUsername "Alice" (fun s => s == "alice")
        (fun _ => "bcdfgh") = .ok "alice.bcdfgh") ∧
    ((getUser "alice.bcdfgh" ⟨[], []⟩).result = .error (.httpError 400
      "Invalid username format. Only letters and numbers are allowed") ∧
     (getUser "alice.bcdfgh" ⟨[], []⟩).queried = false) :=
  ⟨⟨by decide, by rfl⟩,
    getUser_rejects_suffixed "Alice" (fun s => s == "alice")
      (fun _ => "bcdfgh") "alice.bcdfgh" ⟨[], []⟩ (by decide) (by rfl)⟩

/- ===================== Recipe deletion =====================
   Source: src/utils/helper.ts lines 484-550 (deleteRecipe), composed
   with the withTransaction wrapper of operations.ts. -/

/-- Authenticated caller attached by the auth middleware. -/
structure ReqUser where
  id : Nat
  role : String
deriving DecidableEq, Repr

/-- Plain JSON response: status and message. -/
structure HttpResp where
  status : Nat
  bodyMsg : String
deriving DecidableEq, Repr

/-- Observable events of a delete call, in order of occurrence. -/
inductive Ev where
  | dbDeleteRecipe
  | dbPullSaved
  | imgDestroy
  | txCommit
  | txAbort
deriving DecidableEq, Repr

/-- `recipe.deleteOne({session})`: remove the recipe document. -/
def dbDeleteRecipeOp (db : DB) (rid : Nat) : DB :=
  { db with recipes := db.recipes.filter (fun r => !(r.id == rid)) }

/-- `User.updateMany({savedRecipes: id}, {$pull: {savedRecipes: id}},
{session})`: pulling from a document that does not contain the id is the
identity, so this maps the pull over every user document. -/
def dbPullSavedOp (db : DB) (rid : Nat) : DB :=
  { db with users := db.users.map (fun u =>
      { u with savedRecipes := pull u.savedRecipes rid }) }

/-- Outcome of a delete call: the response or raised error, the durable
database after the wrapper, the event trace, and the number of image
destroy calls attempted. -/
structure DeleteOutcome where
  result : Except JsErr HttpResp
  db : DB
  events : List Ev
  destroyCalls : Nat
deriving Repr

/-- Body of source `deleteRecipe` (helper.ts lines 484-550): auth check,
fetch, creator-or-admin check (the unauthorized case responds 403 and
returns normally), store the image id, delete the document, pull the id
from all saved sets, then try the Cloudinary destroy, whose outcome
`destroyRes` is swallowed (logged only). -/
def deleteRecipeBody (user : Option ReqUser) (rid : Nat)
    ( _destroyRes : Except String Unit) (s : Session DB) :
    Except JsErr HttpResp × Session DB × List Ev × Nat :=
  match user with
  | none => (.error (.httpError 401 "Unauthorized, user information not found"),
      s, [], 0)
  | some u =>
    match findRecipe s.pending rid with
    | none => (.error (.httpError 404 "Recipe not found"), s, [], 0)
    | some recipe =>
      if !(recipe.createdBy == u.id) && !(u.role == "admin") then
        (.ok ⟨403, "Not authorized to delete this recipe"⟩, s, [], 0)
      else
        let imagePublicId := recipe.image.map (fun i => i.public_id)
        let s1 := { s with pending := dbDeleteRecipeOp s.pending rid }
        let s2 := { s1 with pending := dbPullSavedOp s1.pending rid }
        match imagePublicId with
        | some _ =>
          (.ok ⟨200, "Recipe successfully removed"⟩, s2,
            [.dbDeleteRecipe, .dbPullSaved, .imgDestroy], 1)
        | none =>
          (.ok ⟨200, "Recipe successfully removed"⟩, s2,
            [.dbDeleteRecipe, .dbPullSaved], 0)

/-- Source `deleteRecipe` = `withTransaction(body)`: run the body on a
fresh session and transaction, commit on normal return (appending the
commit to the trace), abort-if-active on failure. -/
def deleteRecipe (user : Option ReqUser) (rid : Nat)
    (destroyRes : Except String Unit) (db : DB) : DeleteOutcome :=
  let s := startTransaction (startSession db)
  match deleteRecipeBody user rid destroyRes s with
  | (.ok r, s2, evs, dc) =>
      ⟨.ok r, (endSession (commitTransaction s2)).db, evs ++ [.txCommit], dc⟩
  | (.error e, s2, evs, dc) =>
      let s3 := if s2.inTransaction then abortTransaction s2 else s2
      ⟨.error e, (endSession s3).db, evs ++ [.txAbort], dc⟩

/-- Pre-state for the closed C6 instances: recipe 1 (with an image,
created by user 10) is saved by users 2, 3 and 4. -/
def c6db : DB :=
  ⟨[⟨2, "a", "creator", [1]⟩, ⟨3, "b", "creator", [1]⟩,
    ⟨4, "c", "creator", [1]⟩, ⟨10, "owner", "creator", []⟩],
    [⟨1, 10, [2, 3, 4], "Jollof", "rice", 30, "easy", 4, "Nigerian",
      ["cal"], ["rice"], ["cook"], some ⟨"pid", "url"⟩⟩]⟩

/-- C6 counterexample: in an authorized delete of an image-bearing
recipe the destroy attempt occurs at trace position 2, strictly before
the transaction commit at position 3 — no commit precedes it — so the
image delete is NOT attempted "only after the transaction commits". -/
theorem deleteRecipe_destroy_before_commit :
    (deleteRecipe (some ⟨10, "creator"⟩) 1 (.ok ()) c6db).events =
      [.dbDeleteRecipe, .dbPullSaved, .imgDestroy, .txCommit] ∧
    Ev.imgDestroy ∈ (deleteRecipe (some ⟨10, "creator"⟩) 1 (.ok ()) c6db).events.take 3 ∧
    Ev.txCommit ∉ (deleteRecipe (some ⟨10, "creator"⟩) 1 (.ok ()) c6db).events.take 3 :=
  ⟨rfl, by decide, by decide⟩

/-- C6 amended: an authorized delete of an image-bearing recipe deletes
the recipe document and pulls its id from every user's saved set inside
the one transaction, attempts the image destroy exactly once — after the
database writes but BEFORE the commit, not after it — and the destroy
outcome (success or failure, logged only) never changes the successful
response or the resulting database. -/
theorem deleteRecipe_cascades (user : ReqUser) (rid : Nat) (db : DB)
    (r0 : RecipeDoc) (img : ImageRef) (destroyRes : Except String Unit)
    (hr : findRecipe db rid = some r0)
    (hauth : (r0.createdBy == user.id) = true ∨ (user.role == "admin") = true)
    (himg : r0.image = some img) :
    (deleteRecipe (some user) rid destroyRes db).result =
      .ok ⟨200, "Recipe successfully removed"⟩ ∧
    (∀ r' ∈ (deleteRecipe (some user) rid destroyRes db).db.recipes, r'.id ≠ rid) ∧
    (∀ u' ∈ (deleteRecipe (some user) rid destroyRes db).db.users,
      rid ∉ u'.savedRecipes) ∧
    (deleteRecipe (some user) rid destroyRes db).destroyCalls = 1 ∧
    (deleteRecipe (some user) rid destroyRes db).events =
      [.dbDeleteRecipe, .dbPullSaved, .imgDestroy, .txCommit] ∧
    (∀ d1 d2 : Except String Unit,
      deleteRecipe (some user) rid d1 db = deleteRecipe (some user) rid d2 db) := by
  have hcond : (!(r0.createdBy == user.id) && !(user.role == "admin")) = false := by
    rcases hauth with h | h <;> simp [h]
  have hpend : (startTransaction (startSession db)).pending = db := rfl
  have hbody : ∀ d : Except String Unit,
      deleteRecipeBody (some user) rid d (startTransaction (startSession db)) =
      (.ok ⟨200, "Recipe successfully removed"⟩,
        { startTransaction (startSession db) with
            pending := dbPullSavedOp (dbDeleteRecipeOp db rid) rid },
        [.dbDeleteRecipe, .dbPullSaved, .imgDestroy], 1) := by
    intro d
    unfold deleteRecipeBody
    simp only [hpend, hr, hcond, Bool.false_eq_true, if_false, himg, Option.map_some']
  have houtcome : deleteRecipe (some user) rid destroyRes db =
      ⟨.ok ⟨200, "Recipe successfully removed"⟩,
        dbPullSavedOp (dbDeleteRecipeOp db rid) rid,
        [.dbDeleteRecipe, .dbPullSaved, .imgDestroy, .txCommit], 1⟩ := by
    unfold deleteRecipe
    simp only [hbody destroyRes]
    rfl
  rw [houtcome]
  refine ⟨rfl, ?_, ?_, rfl, rfl, ?_⟩
  · intro r' hm
    have hm2 : r' ∈ db.recipes.filter (fun r => !(r.id == rid)) := by
      simpa [dbPullSavedOp, dbDeleteRecipeOp] using hm
    have h2 := (List.mem_filter.mp hm2).2
    simpa using h2
  · intro u' hm
    have hm2 : u' ∈ (dbDeleteRecipeOp db rid).users.map
        (fun u => { u with savedRecipes := pull u.savedRecipes rid }) := by
      simpa [dbPullSavedOp] using hm
    obtain ⟨u0, _, rfl⟩ := List.mem_map.mp hm2
    exact not_mem_pull u0.savedRecipes rid
  · intro d1 d2
    unfold deleteRecipe
    simp only [hbody d1, hbody d2]

/-- Closed instance of the amended C6 at `c6db` (recipe saved by users
2, 3 and 4): the delete succeeds, the recipe and every saved reference
are gone, exactly one destroy is attempted, and a failing destroy gives
the same outcome as a successful one. -/
theorem deleteRecipe_cascades_witness :
    (findRecipe c6db 1 = some ⟨1, 10, [2, 3, 4], "Jollof", "rice", 30, "easy",
        4, "Nigerian", ["cal"], ["rice"], ["cook"], some ⟨"pid", "url"⟩⟩ ∧
      (((10 : Nat) == (10 : Nat)) = true ∨ (("creator" == "admin") = true)) ∧
      (⟨1, 10, [2, 3, 4], "Jollof", "rice", 30, "easy", 4, "Nigerian",
        ["cal"], ["rice"], ["cook"], some ⟨"pid", "url"⟩⟩ : RecipeDoc).image =
        some ⟨"pid", "url"⟩) ∧
    (deleteRecipe (some ⟨10, "creator"⟩) 1 (.error "cloud down") c6db).result =
      .ok ⟨200, "Recipe successfully removed"⟩ ∧
    (∀ r' ∈ (deleteRecipe (some ⟨10, "creator"⟩) 1 (.error "cloud down") c6db).db.recipes,
      r'.id ≠ 1) ∧
    (∀ u' ∈ (deleteRecipe (some ⟨10, "creator"⟩) 1 (.error "cloud down") c6db).db.users,
      (1 : Nat) ∉ u'.savedRecipes) ∧
    (deleteRecipe (some ⟨10, "creator"⟩) 1 (.error "cloud down") c6db).destroyCalls = 1 ∧
    (deleteRecipe (some ⟨10, "creator"⟩) 1 (.error "cloud down") c6db).events =
      [.dbDeleteRecipe, .dbPullSaved, .imgDestroy, .txCommit] ∧
    deleteRecipe (some ⟨10, "creator"⟩) 1 (.error "cloud down") c6db =
      deleteRecipe (some ⟨10, "creator"⟩) 1 (.ok ()) c6db := by
  have h := deleteRecipe_cascades ⟨10, "creator"⟩ 1 c6db
    ⟨1, 10, [2, 3, 4], "Jollof", "rice", 30, "easy", 4, "Nigerian",
      ["cal"], ["rice"], ["cook"], some ⟨"pid", "url"⟩⟩
    ⟨"pid", "url"⟩ (.error "cloud down") rfl (Or.inl (by decide)) rfl
  exact ⟨⟨rfl, Or.inl (by decide), rfl⟩, h.1, h.2.1, h.2.2.1, h.2.2.2.1,
    h.2.2.2.2.1, h.2.2.2.2.2 (.error "cloud down") (.ok ())⟩

/- ===================== Recipe update =====================
   Source: src/utils/helper.ts lines 314-475 (updateRecipe). -/

/-- A form-data value as JavaScript sees it: absent, a string, or a
number (a JSON body can carry numeric zero). -/
inductive JsVal where
  | undef
  | str (s : String)
  | num (n : Int)
deriving DecidableEq, Repr

/-- JS truthiness: `undefined`, `""` and `0` are falsy. -/
def truthyV : JsVal → Bool
  | .undef => false
  | .str s => !(s == "")
  | .num n => !(n == 0)

/-- The value as assigned to a string field (mongoose casts). -/
def strV : JsVal → String
  | .undef => "undefined"
  | .str s => s
  | .num n => toString n

/-- `Number(x)` on a truthy value. -/
def numV : JsVal → Int
  | .undef => 0
  | .str s => mongoNumber s
  | .num n => n

/-- `JSON.parse` applied to a JsVal field. -/
def parseValV (parse : String → Option JsParsed) : JsVal → Option JsParsed
  | .undef => none
  | .str s => parse s
  | .num _ => some (.jsOther "number")

/-- The update request. -/
structure UpdateReq where
  user : Option ReqUser
  recipeId : Nat
  name : JsVal
  desc : JsVal
  prepTime : JsVal
  difficulty : JsVal
  serving : JsVal
  cuisine : JsVal
  nutritionFacts : JsVal
  ingredients : JsVal
  instructions : JsVal
  file : Option Nat
deriving Repr

/-- Source lines 357-363: `recipe.name = name || recipe.name` and the
five analogous assignments (`prepTime`/`serving` through `Number(x)`
when truthy). -/
def applyScalarUpdates (req : UpdateReq) (r : RecipeDoc) : RecipeDoc :=
  { r with
    name := if truthyV req.name then strV req.name else r.name,
    desc := if truthyV req.desc then strV req.desc else r.desc,
    prepTime := if truthyV req.prepTime then numV req.prepTime else r.prepTime,
    difficulty := if truthyV req.difficulty then strV req.difficulty else r.difficulty,
    serving := if truthyV req.serving then numV req.serving else r.serving,
    cuisine := if truthyV req.cuisine then strV req.cuisine else r.cuisine }

/-- Source lines 366-380: if nutritionFacts is truthy, parse it and
require a non-empty array; both a parse failure and the thrown
non-empty-array error are caught by the same catch and re-thrown as the
format error. -/
def applyNutrition (parse : String → Option JsParsed) (v : JsVal)
    (r : RecipeDoc) : Except JsErr RecipeDoc :=
  if truthyV v then
    match parseValV parse v with
    | none => .error (.httpError 400 "Invalid nutrition facts format")
    | some p =>
      if !isNonEmptyArray p then
        .error (.httpError 400 "Invalid nutrition facts format")
      else .ok { r with nutritionFacts := elemsOf p }
  else .ok r

/-- Source lines 383-400: the ingredients handler. -/
def applyIngredients (parse : String → Option JsParsed) (v : JsVal)
    (r : RecipeDoc) : Except JsErr RecipeDoc :=
  if truthyV v then
    match parseValV parse v with
    | none => .error (.httpError 400 "Invalid ingredients format")
    | some p =>
      if !isNonEmptyArray p then
        .error (.httpError 400 "Invalid ingredients format")
      else .ok { r with ingredients := elemsOf p }
  else .ok r

/-- Source lines 403-420: the instructions handler. -/
def applyInstructions (parse : String → Option JsParsed) (v : JsVal)
    (r : RecipeDoc) : Except JsErr RecipeDoc :=
  if truthyV v then
    match parseValV parse v with
    | none => .error (.httpError 400 "Invalid instructions format")
    | some p =>
      if !isNonEmptyArray p then
        .error (.httpError 400 "Invalid instructions format")
      else .ok { r with instructions := elemsOf p }
  else .ok r

/-- Source lines 423-458: if a new image is supplied, optimize and
upload it (failures re-thrown as the 500 upload failure), best-effort
delete the old image (outcome swallowed), and replace the reference. -/
def applyImage (sharpRes : Except String Nat)
    (uploadRes : Except String ImageRef) ( _destroyRes : Except String Unit)
    (file : Option Nat) (r : RecipeDoc) : Except JsErr RecipeDoc :=
  match file with
  | none => .ok r
  | some _ =>
    match optimizeImage sharpRes with
    | .error _ => .error (.httpError 500 "Failed to upload new recipe image")
    | .ok _ =>
      match uploadRes with
      | .error _ => .error (.httpError 500 "Failed to upload new recipe image")
      | .ok img => .ok { r with image := some img }

/-- Outcome of an update call. -/
structure UpdateOutcome where
  result : Except JsErr RecipeDoc
  db : DB
deriving Repr

/-- Source `updateRecipe` (helper.ts lines 314-475): auth check, fetch,
creator-or-admin check, scalar assignments, the three array handlers,
the image replacement, then `recipe.save({session})` persists the
mutated document inside the transaction. -/
def updateRecipe (parse : String → Option JsParsed)
    (sharpRes : Except String Nat) (uploadRes : Except String ImageRef)
    (destroyRes : Except String Unit) (req : UpdateReq) (db : DB) :
    UpdateOutcome :=
  match req.user with
  | none => ⟨.error (.httpError 401 "Unauthorized, user information not found"), db⟩
  | some u =>
    match findRecipe db req.recipeId with
    | none => ⟨.error (.httpError 404 "Recipe not found"), db⟩
    | some recipe =>
      if !(recipe.createdBy == u.id) && !(u.role == "admin") then
        ⟨.error (.httpError 401 "Not authorized to update this recipe"), db⟩
      else
        let r1 := applyScalarUpdates req recipe
        match applyNutrition parse req.nutritionFacts r1 with
        | .error e => ⟨.error e, db⟩
        | .ok r2 =>
        match applyIngredients parse req.ingredients r2 with
        | .error e => ⟨.error e, db⟩
        | .ok r3 =>
        match applyInstructions parse req.instructions r3 with
        | .error e => ⟨.error e, db⟩
        | .ok r4 =>
        match applyImage sharpRes uploadRes destroyRes req.file r4 with
        | .error e => ⟨.error e, db⟩
        | .ok r5 =>
          ⟨.ok r5, recipeUpdateById db req.recipeId (fun _ => r5)⟩

theorem applyNutrition_scalars (parse : String → Option JsParsed) (v : JsVal)
    (r r' : RecipeDoc) (h : applyNutrition parse v r = .ok r') :
    r'.id = r.id ∧ r'.name = r.name ∧ r'.desc = r.desc ∧
    r'.prepTime = r.prepTime ∧ r'.difficulty = r.difficulty ∧
    r'.serving = r.serving ∧ r'.cuisine = r.cuisine := by
  unfold applyNutrition at h
  cases ht : truthyV v with
  | false =>
    simp only [ht, Bool.false_eq_true, if_false, Except.ok.injEq] at h
    subst h
    exact ⟨rfl, rfl, rfl, rfl, rfl, rfl, rfl⟩
  | true =>
    simp only [ht, if_true] at h
    cases hp : parseValV parse v with
    | none => simp [hp] at h
    | some p =>
      simp only [hp] at h
      cases hne : isNonEmptyArray p with
      | false => simp [hne] at h
      | true =>
        simp only [hne, Bool.not_true, Bool.false_eq_true, if_false,
          Except.ok.injEq] at h
        subst h
        exact ⟨rfl, rfl, rfl, rfl, rfl, rfl, rfl⟩

theorem applyIngredients_scalars (parse : String → Option JsParsed) (v : JsVal)
    (r r' : RecipeDoc) (h : applyIngredients parse v r = .ok r') :
    r'.id = r.id ∧ r'.name = r.name ∧ r'.desc = r.desc ∧
    r'.prepTime = r.prepTime ∧ r'.difficulty = r.difficulty ∧
    r'.serving = r.serving ∧ r'.cuisine = r.cuisine := by
  unfold applyIngredients at h
  cases ht : truthyV v with
  | false =>
    simp only [ht, Bool.false_eq_true, if_false, Except.ok.injEq] at h
    subst h
    exact ⟨rfl, rfl, rfl, rfl, rfl, rfl, rfl⟩
  | true =>
    simp only [ht, if_true] at h
    cases hp : parseValV parse v with
    | none => simp [hp] at h
    | some p =>
      simp only [hp] at h
      cases hne : isNonEmptyArray p with
      | false => simp [hne] at h
      | true =>
        simp only [hne, Bool.not_true, Bool.false_eq_true, if_false,
          Except.ok.injEq] at h
        subst h
        exact ⟨rfl, rfl, rfl, rfl, rfl, rfl, rfl⟩

theorem applyInstructions_scalars (parse : String → Option JsParsed) (v : JsVal)
    (r r' : RecipeDoc) (h : applyInstructions parse v r = .ok r') :
    r'.id = r.id ∧ r'.name = r.name ∧ r'.desc = r.desc ∧
    r'.prepTime = r.prepTime ∧ r'.difficulty = r.difficulty ∧
    r'.serving = r.serving ∧ r'.cuisine = r.cuisine := by
  unfold applyInstructions at h
  cases ht : truthyV v with
  | false =>
    simp only [ht, Bool.false_eq_true, if_false, Except.ok.injEq] at h
    subst h
    exact ⟨rfl, rfl, rfl, rfl, rfl, rfl, rfl⟩
  | true =>
    simp only [ht, if_true] at h
    cases hp : parseValV parse v with
    | none => simp [hp] at h
    | some p =>
      simp only [hp] at h
      cases hne : isNonEmptyArray p with
      | false => simp [hne] at h
      | true =>
        simp only [hne, Bool.not_true, Bool.false_eq_true, if_false,
          Except.ok.injEq] at h
        subst h
        exact ⟨rfl, rfl, rfl, rfl, rfl, rfl, rfl⟩

theorem applyImage_scalars (sharpRes : Except String Nat)
    (uploadRes : Except String ImageRef) (destroyRes : Except String Unit)
    (file : Option Nat) (r r' : RecipeDoc)
    (h : applyImage sharpRes uploadRes destroyRes file r = .ok r') :
    r'.id = r.id ∧ r'.name = r.name ∧ r'.desc = r.desc ∧
    r'.prepTime = r.prepTime ∧ r'.difficulty = r.difficulty ∧
    r'.serving = r.serving ∧ r'.cuisine = r.cuisine := by
  unfold applyImage at h
  cases file with
  | none =>
    simp only [Except.ok.injEq] at h
    subst h
    exact ⟨rfl, rfl, rfl, rfl, rfl, rfl, rfl⟩
  | some buf =>
    cases ho : optimizeImage sharpRes with
    | error e => simp [ho] at h
    | ok b =>
      simp only [ho] at h
      cases hu : uploadRes with
      | error e => simp [hu] at h
      | ok img =>
        simp only [hu, Except.ok.injEq] at h
        subst h
        exact ⟨rfl, rfl, rfl, rfl, rfl, rfl, rfl⟩

/-- C10: in a completed update, any scalar form field that is absent or
falsy (empty string for name, desc, difficulty or cuisine; numeric zero
for prepTime or serving) leaves the stored recipe's corresponding field
at its prior value, so an update can never set a scalar field to an
empty string or zero through a falsy input. -/
theorem updateRecipe_falsyKeepsPrior (parse : String → Option JsParsed)
    (sharpRes : Except String Nat) (uploadRes : Except String ImageRef)
    (destroyRes : Except String Unit) (req : UpdateReq) (db : DB)
    (r0 : RecipeDoc) (resp : RecipeDoc)
    (hr : findRecipe db req.recipeId = some r0)
    (hok : (updateRecipe parse sharpRes uploadRes destroyRes req db).result =
      .ok resp) :
    ∃ rStored,
      findRecipe (updateRecipe parse sharpRes uploadRes destroyRes req db).db
        req.recipeId = some rStored ∧
      (truthyV req.name = false → rStored.name = r0.name) ∧
      (truthyV req.desc = false → rStored.desc = r0.desc) ∧
      (truthyV req.prepTime = false → rStored.prepTime = r0.prepTime) ∧
      (truthyV req.difficulty = false → rStored.difficulty = r0.difficulty) ∧
      (truthyV req.serving = false → rStored.serving = r0.serving) ∧
      (truthyV req.cuisine = false → rStored.cuisine = r0.cuisine) := by
  unfold updateRecipe at hok ⊢
  cases huser : req.user with
  | none => simp [huser] at hok
  | some u =>
  simp only [huser, hr] at hok ⊢
  cases hc : (!(r0.createdBy == u.id) && !(u.role == "admin")) with
  | true => simp [hc] at hok
  | false =>
  simp only [hc, Bool.false_eq_true, if_false] at hok ⊢
  cases h2 : applyNutrition parse req.nutritionFacts (applyScalarUpdates req r0) with
  | error e => simp [h2] at hok
  | ok r2 =>
  simp only [h2] at hok ⊢
  cases h3 : applyIngredients parse req.ingredients r2 with
  | error e => simp [h3] at hok
  | ok r3 =>
  simp only [h3] at hok ⊢
  cases h4 : applyInstructions parse req.instructions r3 with
  | error e => simp [h4] at hok
  | ok r4 =>
  simp only [h4] at hok ⊢
  cases h5 : applyImage sharpRes uploadRes destroyRes req.file r4 with
  | error e => simp [h5] at hok
  | ok r5 =>
  simp only [h5] at hok ⊢
  obtain ⟨hid2, hn2, hd2, hp2, hdf2, hsv2, hcu2⟩ :=
    applyNutrition_scalars _ _ _ _ h2
  obtain ⟨hid3, hn3, hd3, hp3, hdf3, hsv3, hcu3⟩ :=
    applyIngredients_scalars _ _ _ _ h3
  obtain ⟨hid4, hn4, hd4, hp4, hdf4, hsv4, hcu4⟩ :=
    applyInstructions_scalars _ _ _ _ h4
  obtain ⟨hid5, hn5, hd5, hp5, hdf5, hsv5, hcu5⟩ :=
    applyImage_scalars _ _ _ _ _ _ h5
  have hr2 : db.recipes.find? (fun r => r.id == req.recipeId) = some r0 := hr
  have hp0 := List.find?_some hr2
  have hidchain : (r5.id == req.recipeId) = true := by
    rw [hid5, hid4, hid3, hid2]
    exact hp0
  have hfind : findRecipe (recipeUpdateById db req.recipeId (fun _ => r5))
      req.recipeId = (findRecipe db req.recipeId).map (fun _ => r5) := by
    unfold findRecipe recipeUpdateById
    exact find?_map_ite _ _ _ (fun b _ => hidchain)
  refine ⟨r5, ?_, ?_, ?_, ?_, ?_, ?_, ?_⟩
  · rw [hfind, hr]
    rfl
  · intro hf
    rw [hn5, hn4, hn3, hn2]
    simp [applyScalarUpdates, hf]
  · intro hf
    rw [hd5, hd4, hd3, hd2]
    simp [applyScalarUpdates, hf]
  · intro hf
    rw [hp5, hp4, hp3, hp2]
    simp [applyScalarUpdates, hf]
  · intro hf
    rw [hdf5, hdf4, hdf3, hdf2]
    simp [applyScalarUpdates, hf]
  · intro hf
    rw [hsv5, hsv4, hsv3, hsv2]
    simp [applyScalarUpdates, hf]
  · intro hf
    rw [hcu5, hcu4, hcu3, hcu2]
    simp [applyScalarUpdates, hf]

/-- Pre-state for the closed C10 instance. -/
def c10db : DB :=
  ⟨[], [⟨1, 10, [2], "Jollof", "rice", 30, "easy", 4, "Nigerian",
    ["cal"], ["rice"], ["cook"], none⟩]⟩

/-- Update request by the creator where every scalar field is absent or
falsy (empty strings, numeric zeros). -/
def c10req : UpdateReq :=
  ⟨some ⟨10, "creator"⟩, 1, .str "", .undef, .num 0, .str "", .num 0,
    .undef, .undef, .undef, .undef, none⟩

/-- Closed instance of C10: an update whose scalar fields are all falsy
completes and leaves every scalar at its prior value. -/
theorem updateRecipe_falsyKeepsPrior_witness :
    (findRecipe c10db 1 = some ⟨1, 10, [2], "Jollof", "rice", 30, "easy", 4,
        "Nigerian", ["cal"], ["rice"], ["cook"], none⟩ ∧
      (updateRecipe parseDemo (.ok 1) (.ok ⟨"pid", "url"⟩) (.ok ()) c10req
          c10db).result =
        .ok ⟨1, 10, [2], "Jollof", "rice", 30, "easy", 4, "Nigerian",
          ["cal"], ["rice"], ["cook"], none⟩) ∧
    (∃ rStored,
      findRecipe (updateRecipe parseDemo (.ok 1) (.ok ⟨"pid", "url"⟩) (.ok ())
          c10req c10db).db c10req.recipeId = some rStored ∧
      (truthyV c10req.name = false → rStored.name =
        (⟨1, 10, [2], "Jollof", "rice", 30, "easy", 4, "Nigerian",
          ["cal"], ["rice"], ["cook"], none⟩ : RecipeDoc).name) ∧
      (truthyV c10req.desc = false → rStored.desc =
        (⟨1, 10, [2], "Jollof", "rice", 30, "easy", 4, "Nigerian",
          ["cal"], ["rice"], ["cook"], none⟩ : RecipeDoc).desc) ∧
      (truthyV c10req.prepTime = false → rStored.prepTime =
        (⟨1, 10, [2], "Jollof", "rice", 30, "easy", 4, "Nigerian",
          ["cal"], ["rice"], ["cook"], none⟩ : RecipeDoc).prepTime) ∧
      (truthyV c10req.difficulty = false → rStored.difficulty =
        (⟨1, 10, [2], "Jollof", "rice", 30, "easy", 4, "Nigerian",
          ["cal"], ["rice"], ["cook"], none⟩ : RecipeDoc).difficulty) ∧
      (truthyV c10req.serving = false → rStored.serving =
        (⟨1, 10, [2], "Jollof", "rice", 30, "easy", 4, "Nigerian",
          ["cal"], ["rice"], ["cook"], none⟩ : RecipeDoc).serving) ∧
      (truthyV c10req.cuisine = false → rStored.cuisine =
        (⟨1, 10, [2], "Jollof", "rice", 30, "easy", 4, "Nigerian",
          ["cal"], ["rice"], ["cook"], none⟩ : RecipeDoc).cuisine)) :=
  ⟨⟨rfl, rfl⟩,
    updateRecipe_falsyKeepsPrior parseDemo (.ok 1) (.ok ⟨"pid", "url"⟩) (.ok ())
      c10req c10db
      ⟨1, 10, [2], "Jollof", "rice", 30, "easy", 4, "Nigerian",
        ["cal"], ["rice"], ["cook"], none⟩
      ⟨1, 10, [2], "Jollof", "rice", 30, "easy", 4, "Nigerian",
        ["cal"], ["rice"], ["cook"], none⟩
      rfl rfl⟩
